import Mathlib

/-!
Shallow embedding of the session/credential/cache orchestration subsystem of
the aws-sidekick backend, together with proofs settling the frozen claims.

Python exceptions are modelled by the inductive `PyError`; `os.environ`
mutations by an explicit `EnvState`; async methods by pure state-passing
functions.  Each definition is translated from the named Python source
function.
-/

/-- Exception values raised by the modelled code.
`valueError` / `runtimeError` are Python builtins; the rest are the domain
exception classes of src/core/domain/exceptions.py. -/
inductive PyError where
  | valueError (msg : String)
  | runtimeError (msg : String)
  | accountValidationError (msg : String)
  | conversationNotFoundError (msg : String)
  | agentUnavailableError (msg : String)
  | messageProcessingError (msg : String)
  deriving Repr, DecidableEq

/-- Value object from src/core/domain/value_objects/aws_credentials.py
(class AWSCredentials). -/
structure AWSCredentials where
  access_key_id : Option String := none
  secret_access_key : Option String := none
  session_token : Option String := none
  region : String := "us-east-1"
  profile : Option String := none
  deriving Repr, DecidableEq

namespace AWSCredentials

/-- `AWSCredentials.uses_profile`: `self.profile is not None`. -/
def uses_profile (c : AWSCredentials) : Bool := c.profile.isSome

/-- `AWSCredentials.uses_keys`:
`self.access_key_id is not None and self.secret_access_key is not None`. -/
def uses_keys (c : AWSCredentials) : Bool :=
  c.access_key_id.isSome && c.secret_access_key.isSome

end AWSCredentials

/-- The AWS-related slice of `os.environ` read and written by
AWSApplicationService and the MCP manager.  `none` means the variable is
absent (popped). -/
structure EnvState where
  accessKeyId : Option String := none
  secretAccessKey : Option String := none
  sessionToken : Option String := none
  profile : Option String := none
  defaultRegion : Option String := none
  deriving Repr, DecidableEq

/-- Mutable state of AWSApplicationService relevant to account switching:
the active alias, the ambient environment, and a counter of calls made to
the MCP reinitialization port (`reinitialize_with_new_credentials`). -/
structure ServiceState where
  activeAlias : Option String := none
  env : EnvState := {}
  reinitCalls : Nat := 0
  deriving Repr, DecidableEq

/-- An account as seen by `set_active_account`: the repository either has no
account for the alias (`none`), or has one whose in-memory credentials are
loadable (`some (some c)`) or missing (`some none`), mirroring
`get_account_by_alias` followed by `account.load_credentials()`. -/
def AccountRepo : Type := String → Option (Option AWSCredentials)

/-- AWSApplicationService._update_environment_with_credentials
(src/application/services/aws_application_service.py).
Writes the credential environment variables (key mode clears the profile
variable and vice versa), always sets the default region, then — when the
reinitialization port is configured — calls
`reinitialize_with_new_credentials`, swallowing any failure.  The call is
counted in `reinitCalls` whether or not it succeeds. -/
def updateEnvironmentWithCredentials (reinitPortConfigured : Bool)
    (c : AWSCredentials) (s : ServiceState) : ServiceState :=
  let env := s.env
  let env :=
    if c.uses_keys then
      { env with
        accessKeyId := some (c.access_key_id.getD "")
        secretAccessKey := some (c.secret_access_key.getD "")
        sessionToken := c.session_token
        profile := none }
    else if c.uses_profile then
      { env with
        profile := some (c.profile.getD "")
        accessKeyId := none
        secretAccessKey := none
        sessionToken := none }
    else env
  let env := { env with defaultRegion := some c.region }
  { s with
    env := env
    reinitCalls := if reinitPortConfigured then s.reinitCalls + 1 else s.reinitCalls }

/-- AWSApplicationService.set_active_account.  Looks up the account, loads
its credentials (raising ValueError when absent, before any state change),
then records the alias as active and updates the environment (which also
triggers MCP reinitialization).  The returned state reflects the in-place
mutations performed before a raise. -/
def setActiveAccount (repo : AccountRepo) (reinitPortConfigured : Bool)
    (acctAlias : String) (s : ServiceState) : Except PyError Unit × ServiceState :=
  match repo acctAlias with
  | none =>
      (Except.error (PyError.valueError
        ("Account with alias " ++ acctAlias ++ " not found")), s)
  | some none =>
      (Except.error (PyError.valueError
        ("No credentials available for account " ++ acctAlias ++
         ". Please re-enter credentials via the UI.")), s)
  | some (some creds) =>
      let s1 := { s with activeAlias := some acctAlias }
      let s2 := updateEnvironmentWithCredentials reinitPortConfigured creds s1
      (Except.ok (), s2)

/-- State of MCPServerManager (src/infrastructure/mcp_manager.py) as far as
the engine handle is concerned.  The agent handle is modelled by a `Nat`
identifier; `none` means no agent is stored. -/
structure MCPState where
  agent : Option Nat := none
  deriving Repr, DecidableEq

/-- MCPServerManager.initialize_mcp_servers_and_agent.  `outcome` is the
result of the build attempt: `some a` when construction of the new agent
succeeds, `none` when an exception or import error occurs.  On success the
new agent is stored and returned; on failure the method returns `none`
WITHOUT touching the stored references (the `Store references` block is
only reached on success). -/
def initializeMCPServersAndAgent (outcome : Option Nat) (s : MCPState) :
    Option Nat × MCPState :=
  match outcome with
  | some a => (some a, { agent := some a })
  | none => (none, s)

/-- MCPServerManager.reinitialize_with_credentials: cleans up the existing
MCP clients (which does not touch the stored agent reference) and then
re-runs `initialize_mcp_servers_and_agent`. -/
def reinitializeWithCredentials (outcome : Option Nat) (s : MCPState) :
    Option Nat × MCPState :=
  initializeMCPServersAndAgent outcome s

/-- MCPServerManager.get_current_agent_and_tools, restricted to the agent
component. -/
def getCurrentAgentAndTools (s : MCPState) : Option Nat := s.agent

/-- Python `patt in hay` on lists of characters: `pat` occurs as a
contiguous sublist of `hay`. -/
def listIsPrefixOfB : List Char → List Char → Bool
  | [], _ => true
  | _ :: _, [] => false
  | a :: as, b :: bs => a == b && listIsPrefixOfB as bs

/-- Substring search on character lists (helper for `strContains`). -/
def listContainsSub (pat : List Char) : List Char → Bool
  | [] => listIsPrefixOfB pat []
  | b :: bs => listIsPrefixOfB pat (b :: bs) || listContainsSub pat bs

/-- Python `pat in hay` for strings. -/
def strContains (hay pat : String) : Bool :=
  listContainsSub pat.toList hay.toList

/-- Python `str.lower()` (ASCII case folding suffices for the messages
involved), implemented over the character list so that it evaluates by
kernel reduction. -/
def pyLower (s : String) : String := String.mk (s.toList.map Char.toLower)

/-- The curated transient-error signatures of
AgentRepositoryAdapter._is_retriable_error. -/
def retriableErrors : List String :=
  ["rate limit", "timeout", "temporary", "service unavailable",
   "too many requests", "connection", "network"]

/-- AgentRepositoryAdapter._is_retriable_error: the lowercased message
contains one of the curated transient signatures. -/
def isRetriableError (msg : String) : Bool :=
  retriableErrors.any (fun m => strContains (pyLower msg) m)

/-- The engine responses normalized by
AgentRepositoryAdapter._extract_response_content: `None`, a plain string, or
an object with optional truthy `message` / `content` / `text` attributes and
a `str()` representation. -/
inductive AgentResponse where
  | nullResp
  | text (s : String)
  | obj (message content textField : Option String) (reprStr : String)
  deriving Repr, DecidableEq

/-- Python truthiness of an optional string attribute (absent or empty means
falsy). -/
def optTruthy : Option String → Bool
  | some s => !(s == "")
  | none => false

/-- AgentRepositoryAdapter._extract_response_content on the modelled
response shapes: None becomes "", a string is returned as is, an object
yields its first truthy attribute among message/content/text, else its
`str()` fallback unless that is empty or "None". -/
def extractResponseContent : AgentResponse → String
  | .nullResp => ""
  | .text s => s
  | .obj m c t r =>
      if optTruthy m then m.getD ""
      else if optTruthy c then c.getD ""
      else if optTruthy t then t.getD ""
      else if !(r == "") && !(r == "None") then r
      else ""

/-- What one invocation of the underlying engine does: return a response,
exceed the `asyncio.wait_for` timeout, or raise an exception with the given
message. -/
inductive RawOutcome where
  | success (resp : AgentResponse)
  | timeoutErr
  | raiseErr (msg : String)
  deriving Repr, DecidableEq

/-- The `agent_operation` closure of
AgentRepositoryAdapter.execute_chat_prompt / execute_prompt: tool errors
whose message carries the invalid_request_error + tool_use or
BadRequestError signatures are converted into explanatory return strings;
other exceptions propagate. -/
def agentOperation (raw : RawOutcome) : RawOutcome :=
  match raw with
  | .raiseErr m =>
      if strContains m "invalid_request_error" && strContains m "tool_use" then
        .success (.text ("Tool execution failed: " ++ m ++
          ". This may be due to missing AWS credentials or configuration issues. Please check your AWS setup."))
      else if strContains m "BadRequestError" then
        .success (.text ("Request error: " ++ m ++
          ". Please check your input and try again."))
      else raw
  | _ => raw

/-- AgentRepositoryAdapter._execute_with_retry, unrolled.  `outcomes n` is
the raw engine behaviour on the n-th invocation (0-based); `fuel` bounds the
loop (`range(max_attempts)`).  Returns the result, the number of engine
invocations made, and the list of backoff sleeps (`2 ** attempt`) performed
between attempts. -/
def executeWithRetryAux (outcomes : Nat → RawOutcome) (timeoutStr : String)
    (maxAttempts : Nat) : Nat → Nat → Except PyError AgentResponse × Nat × List Nat
  | _, 0 => (Except.error (PyError.runtimeError "retry loop exhausted"), 0, [])
  | attempt, fuel + 1 =>
      match agentOperation (outcomes attempt) with
      | .success r => (Except.ok r, 1, [])
      | .timeoutErr =>
          if attempt < maxAttempts - 1 then
            let rest := executeWithRetryAux outcomes timeoutStr maxAttempts (attempt + 1) fuel
            (rest.1, rest.2.1 + 1, 2 ^ attempt :: rest.2.2)
          else
            (Except.error (PyError.runtimeError
              ("Agent operation timed out after " ++ timeoutStr ++ "s and " ++
               toString maxAttempts ++ " attempts")), 1, [])
      | .raiseErr m =>
          if attempt < maxAttempts - 1 && isRetriableError m then
            let rest := executeWithRetryAux outcomes timeoutStr maxAttempts (attempt + 1) fuel
            (rest.1, rest.2.1 + 1, 2 ^ attempt :: rest.2.2)
          else
            (Except.error (PyError.runtimeError
              ("Error executing agent operation: " ++ m)), 1, [])

/-- AgentRepositoryAdapter._execute_with_retry, entered at attempt 0 with
`max_attempts` iterations available. -/
def executeWithRetry (outcomes : Nat → RawOutcome) (timeoutStr : String)
    (maxAttempts : Nat) : Except PyError AgentResponse × Nat × List Nat :=
  executeWithRetryAux outcomes timeoutStr maxAttempts 0 maxAttempts

/-- Message of a modelled Python exception (`str(e)`). -/
def PyError.msgOf : PyError → String
  | .valueError m => m
  | .runtimeError m => m
  | .accountValidationError m => m
  | .conversationNotFoundError m => m
  | .agentUnavailableError m => m
  | .messageProcessingError m => m

/-- Result of one call to AgentRepositoryAdapter.execute_chat_prompt:
the outcome, whether the chat capacity slot was acquired, and how many times
the engine was invoked. -/
structure ChatCallResult where
  result : Except PyError String
  slotAcquired : Bool
  engineInvocations : Nat
  deriving Repr

/-- Whitespace characters removed by Python `str.strip()`. -/
def pyWhitespace (c : Char) : Bool :=
  c == ' ' || c == '\t' || c == '\n' || c == '\r'

/-- Python `str.strip()` (whitespace trim), implemented over the character
list so that it evaluates by kernel reduction. -/
def pyStrip (s : String) : String :=
  String.mk (((s.toList.dropWhile pyWhitespace).reverse.dropWhile
    pyWhitespace).reverse)

/-- AgentRepositoryAdapter.execute_chat_prompt.  An empty/blank prompt
raises ValueError before anything else.  Otherwise the chat semaphore slot
is acquired, then `_chat_agent_context` raises RuntimeError when the agent
is unavailable; otherwise the engine is driven through `_execute_with_retry`
with the 45.0 s chat timeout and `max_attempts=1`, every exception reaching
the surrounding `try` being converted into a user-facing reply string. -/
def executeChatPrompt (available : Bool) (outcomes : Nat → RawOutcome)
    (prompt : String) : ChatCallResult :=
  if prompt == "" || pyStrip prompt == "" then
    { result := Except.error (PyError.valueError "Prompt cannot be empty")
      slotAcquired := false
      engineInvocations := 0 }
  else if !available then
    { result := Except.error (PyError.runtimeError
        "AI agent is not available. Please check that your AI provider API key is set in your .env file.")
      slotAcquired := true
      engineInvocations := 0 }
  else
    let r := executeWithRetry outcomes "45.0" 1
    match r.1 with
    | .ok resp =>
        let content := extractResponseContent resp
        if content == "" then
          { result := Except.ok
              "I encountered an issue processing your request. Please try again or rephrase your question."
            slotAcquired := true
            engineInvocations := r.2.1 }
        else
          { result := Except.ok content
            slotAcquired := true
            engineInvocations := r.2.1 }
    | .error e =>
        let msg := e.msgOf
        let lower := pyLower msg
        let reply :=
          if strContains lower "timeout" then
            "The request is taking longer than expected. Please try a simpler question or try again."
          else if strContains lower "rate limit" then
            "Rate limit reached. Please wait a moment and try again."
          else if strContains lower "api key" || strContains lower "authentication" then
            "Authentication issue. Please check your API key configuration."
          else
            "I encountered an error: " ++ msg ++
            ". Please try again or contact support if the issue persists."
        { result := Except.ok reply
          slotAcquired := true
          engineInvocations := r.2.1 }

/-- Cached account context entry
(src/core/domain/services/account_context_cache.py, dataclass
AccountContext).  Timestamps are rationals (seconds). -/
structure AccountContext where
  acctAlias : String
  is_valid : Bool
  last_validated : ℚ
  account_id : Option String := none
  region : Option String := none
  deriving Repr, DecidableEq

/-- Result of the orchestrator validator
(`get_account_by_alias`): it may raise (modelled by `Except.error`), or
return an account object or `None`.  `getattr(x, f, None)` on `None` yields
`None`. -/
structure AccountInfo where
  account_id : Option String := none
  region : Option String := none
  deriving Repr, DecidableEq

/-- Assoc-list update modelling Python dict assignment
`self._cache[alias] = context` (replace in place, else append). -/
def alistInsert (k : String) (v : AccountContext) :
    List (String × AccountContext) → List (String × AccountContext)
  | [] => [(k, v)]
  | (k2, v2) :: rest =>
      if k2 == k then (k, v) :: rest else (k2, v2) :: alistInsert k v rest

/-- AccountContextCache._is_cache_valid: entry age must be below the TTL, a
hard-coded 60 s for failed validations and the configured `ttl` for valid
ones. -/
def isCacheValid (ttl now : ℚ) (ctx : AccountContext) : Bool :=
  let curTtl : ℚ := if !ctx.is_valid then 60 else ttl
  decide (now - ctx.last_validated < curTtl)

/-- The TTL the chat use case configures its AccountContextCache with
(`AccountContextCache(ttl_seconds=300)`). -/
def accountCacheTTL : ℚ := 300

/-- The hard-coded freshness window of a failed validation entry
(`timedelta(seconds=60)`). -/
def failedEntryTTL : ℚ := 60

/-- AccountContextCache.get_validated_context at time `now`: return a fresh
cached entry immediately; otherwise (the per-alias lock and the double-check
collapse to one check in this sequential model) invoke the validator, cache
a valid entry on success and an invalid one on exception, re-raising.
Returns the outcome, the updated cache, and whether the validator was
invoked. -/
def getValidatedContext (ttl now : ℚ) (acctAlias : String)
    (validator : Except String (Option AccountInfo))
    (cache : List (String × AccountContext)) :
    Except String AccountContext × List (String × AccountContext) × Bool :=
  match cache.lookup acctAlias with
  | some ctx =>
      if isCacheValid ttl now ctx then (Except.ok ctx, cache, false)
      else getValidatedContextMiss now acctAlias validator cache
  | none => getValidatedContextMiss now acctAlias validator cache
where
  /-- The post-lock validation body of `get_validated_context`. -/
  getValidatedContextMiss (now : ℚ) (acctAlias : String)
      (validator : Except String (Option AccountInfo))
      (cache : List (String × AccountContext)) :
      Except String AccountContext × List (String × AccountContext) × Bool :=
    match validator with
    | Except.ok info =>
        let ctx : AccountContext :=
          { acctAlias := acctAlias
            is_valid := true
            last_validated := now
            account_id := (info.map (·.account_id)).join
            region := (info.map (·.region)).join }
        (Except.ok ctx, alistInsert acctAlias ctx cache, true)
    | Except.error e =>
        let ctx : AccountContext :=
          { acctAlias := acctAlias
            is_valid := false
            last_validated := now }
        (Except.error e, alistInsert acctAlias ctx cache, true)

/-- ProcessChatMessageUseCase._validate_account_context: drives the account
cache with the repository lookup as validator and converts any raise into
AccountValidationError. -/
def validateAccountContext (acctAlias : String)
    (validator : Except String (Option AccountInfo)) (now : ℚ)
    (cache : List (String × AccountContext)) :
    Except PyError Unit × List (String × AccountContext) :=
  match getValidatedContext accountCacheTTL now acctAlias validator cache with
  | (Except.ok _, c, _) => (Except.ok (), c)
  | (Except.error _, c, _) =>
      (Except.error (PyError.accountValidationError
        ("Invalid account alias: " ++ acctAlias)), c)


/-- The bounded recency-ordered conversation cache of
ProcessChatMessageUseCase: an `OrderedDict` modelled as an assoc list whose
head is the oldest (least recently used) entry and whose last element is the
most recently used. -/
abbrev ConvCache : Type := List (String × Nat)

/-- `OrderedDict.move_to_end(key)`: relocate the entry to the
most-recently-used end, leaving the other entries in order. -/
def moveToEnd (k : String) (c : ConvCache) : ConvCache :=
  match List.lookup k c with
  | none => c
  | some v => (c.filter (fun p => !(p.1 == k))) ++ [(k, v)]

/-- Python dict assignment `cache[k] = v` on an OrderedDict: replace in
place when the key exists, else append at the most-recently-used end. -/
def convAssign (k : String) (v : Nat) : ConvCache → ConvCache
  | [] => [(k, v)]
  | (k2, v2) :: rest =>
      if k2 == k then (k, v) :: rest else (k2, v2) :: convAssign k v rest

/-- The insertion idiom of _validate_conversation_context /
_ensure_conversation_context: assign, then
`if len(cache) > max_cache_size: cache.popitem(last=False)` (evict the
least-recently-used head). -/
def convInsertBounded (maxSize : Nat) (k : String) (v : Nat)
    (c : ConvCache) : ConvCache :=
  if (convAssign k v c).length > maxSize then (convAssign k v c).drop 1
  else convAssign k v c

/-- One conversation-cache operation of ProcessChatMessageUseCase.
`fetched` is what `chat_repository.get_conversation` would return on a
cache miss; `ensureNew` is the create-new-conversation path; `clearCaches`
is the operational reset. -/
inductive ConvCacheOp where
  | validateConv (id : String) (fetched : Option Nat)
  | ensureWithId (id : String) (fetched : Option Nat)
  | ensureNew (id : String) (conv : Nat)
  | clearCaches
  deriving Repr

/-- Effect of one operation on the conversation cache, translated from
_validate_conversation_context (hit: move_to_end; miss: fetch, raise
ConversationNotFoundError on absent — cache unchanged — else bounded
insert), _ensure_conversation_context (same cache discipline on both its
paths) and clear_caches. -/
def convCacheStep (maxSize : Nat) (c : ConvCache) : ConvCacheOp → ConvCache
  | .validateConv id fetched =>
      if (List.lookup id c).isSome then moveToEnd id c
      else
        match fetched with
        | none => c
        | some conv => convInsertBounded maxSize id conv c
  | .ensureWithId id fetched =>
      if (List.lookup id c).isSome then moveToEnd id c
      else
        match fetched with
        | none => c
        | some conv => convInsertBounded maxSize id conv c
  | .ensureNew id conv => convInsertBounded maxSize id conv c
  | .clearCaches => []

/-- Run a sequence of conversation-cache operations from the empty cache
(the state in which the use case is constructed). -/
def convCacheRun (maxSize : Nat) (ops : List ConvCacheOp) : ConvCache :=
  ops.foldl (convCacheStep maxSize) []

/-- Performance counters of ProcessChatMessageUseCase. -/
structure UseCaseStats where
  requestCount : Nat := 0
  totalProcessingTime : ℚ := 0
  timeoutCount : Nat := 0
  avgAgentProcessingTime : ℚ := 0
  deriving Repr, DecidableEq

/-- What the awaited agent call inside _execute_agent_processing does:
return a response, exceed the configured timeout (asyncio.TimeoutError), or
raise. -/
inductive AgentCallOutcome where
  | ok (resp : String)
  | timeoutTriggered
  | raiseErr (msg : String)
  deriving Repr, DecidableEq

/-- The timeout explanation used when the elapsed time exceeds 60 s
(complex operations). -/
def complexTimeoutMessage : String :=
  "The request is taking longer than expected due to complex operations. This often happens when searching documentation or performing detailed analysis. Please try a simpler question or break your request into smaller parts."

/-- The timeout explanation used when the elapsed time is at most 60 s
(transient load). -/
def transientTimeoutMessage : String :=
  "The request timed out. This might be due to high system load or complex operations. Please try again in a moment."

/-- ProcessChatMessageUseCase._execute_agent_processing with observed
elapsed time `elapsed` (seconds): success updates the rolling average of
agent processing time; a timeout increments `timeout_count` and raises
MessageProcessingError with an explanation chosen by `elapsed > 60`; any
other exception raises MessageProcessingError as well. -/
def executeAgentProcessing (elapsed : ℚ) (outcome : AgentCallOutcome)
    (s : UseCaseStats) : Except PyError String × UseCaseStats :=
  match outcome with
  | .ok resp =>
      let s2 :=
        if s.requestCount > 0 then
          { s with avgAgentProcessingTime :=
              (s.avgAgentProcessingTime * ((s.requestCount : ℚ) - 1) + elapsed) /
              (s.requestCount : ℚ) }
        else { s with avgAgentProcessingTime := elapsed }
      (Except.ok resp, s2)
  | .timeoutTriggered =>
      let s2 := { s with timeoutCount := s.timeoutCount + 1 }
      let msg := if elapsed > 60 then complexTimeoutMessage else transientTimeoutMessage
      (Except.error (PyError.messageProcessingError msg), s2)
  | .raiseErr m =>
      (Except.error (PyError.messageProcessingError
        ("Agent execution failed: " ++ m)), s)

/-- Phase 4 of ProcessChatMessageUseCase.execute: an exception from the
critical-path agent task is re-raised as MessageProcessingError, so the
request never hangs on a timed-out agent call. -/
def wrapAgentTaskResult (agentResult : Except PyError String) :
    Except PyError String :=
  match agentResult with
  | Except.ok r => Except.ok r
  | Except.error e =>
      Except.error (PyError.messageProcessingError
        ("Agent processing failed: " ++ e.msgOf))

/-- The slice of ProcessChatMessageUseCase.get_performance_stats the claims
refer to. -/
structure PerformanceStats where
  requestCount : Nat
  timeoutCount : Nat
  conversationCacheSize : Nat
  avgAgentProcessingTime : ℚ
  deriving Repr, DecidableEq

/-- ProcessChatMessageUseCase.get_performance_stats. -/
def getPerformanceStats (s : UseCaseStats) (convCache : ConvCache) :
    PerformanceStats :=
  { requestCount := s.requestCount
    timeoutCount := s.timeoutCount
    conversationCacheSize := convCache.length
    avgAgentProcessingTime := s.avgAgentProcessingTime }

/-- Recognizer for the typed engine-unavailable domain error. -/
def isAgentUnavailableErr : Except PyError String → Bool
  | Except.error (PyError.agentUnavailableError _) => true
  | _ => false

/-- Recognizer for the typed message-processing domain error. -/
def isMessageProcessingErr : Except PyError String → Bool
  | Except.error (PyError.messageProcessingError _) => true
  | _ => false

/-- A concrete single-account repository used by counterexamples and
witnesses: alias dev with access-key credentials. -/
def devRepo : AccountRepo := fun a =>
  if a == "dev" then
    some (some { access_key_id := some "AKIAEXAMPLE"
                 secret_access_key := some "secretExample"
                 region := "us-east-1" })
  else none

/-- C1 counterexample run: activate dev twice in a row from the initial
state, with the reinitialization port configured. -/
def c1FirstState : ServiceState := (setActiveAccount devRepo true "dev" {}).2

/-- C1: REFUTED.  Setting the already-active alias dev active again performs
a SECOND reinitialization call: the reinitialization-call counter goes from
1 to 2, where the claim requires it to stay at 1.  set_active_account has no
already-active check; the only such check lives in the inbound HTTP adapter
before it calls set_active_account. -/
theorem setActive_repeat_counterexample :
    c1FirstState.activeAlias = some "dev" ∧
    c1FirstState.reinitCalls = 1 ∧
    (setActiveAccount devRepo true "dev" c1FirstState).2.reinitCalls = 2 := by
  decide

/-- C1 (amended): setting an already-active alias active again succeeds,
re-validates credential availability against the repository, and DOES
trigger one more reinitialization call to the lifecycle manager. -/
theorem setActive_repeat_reinitializes (repo : AccountRepo) (a : String)
    (c : AWSCredentials) (s : ServiceState)
    (_hactive : s.activeAlias = some a)
    (hcred : repo a = some (some c)) :
    (setActiveAccount repo true a s).1 = Except.ok () ∧
    (setActiveAccount repo true a s).2.activeAlias = some a ∧
    (setActiveAccount repo true a s).2.reinitCalls = s.reinitCalls + 1 := by
  simp [setActiveAccount, hcred, updateEnvironmentWithCredentials]

/-- Witness for `setActive_repeat_reinitializes` at the concrete repeat
state of the counterexample run. -/
theorem setActive_repeat_reinitializes_witness :
    (setActiveAccount devRepo true "dev" c1FirstState).1 = Except.ok () ∧
    (setActiveAccount devRepo true "dev" c1FirstState).2.activeAlias = some "dev" ∧
    (setActiveAccount devRepo true "dev" c1FirstState).2.reinitCalls =
      c1FirstState.reinitCalls + 1 :=
  setActive_repeat_reinitializes devRepo "dev"
    { access_key_id := some "AKIAEXAMPLE"
      secret_access_key := some "secretExample"
      region := "us-east-1" }
    c1FirstState (by decide) (by decide)

/-- C5: set_active_account for an alias whose account has no loadable
credentials raises the no-credentials ValueError and leaves the whole
service state — previously active alias, ambient environment, and
reinitialization count — unchanged; in particular it never falls back to
another account's credentials. -/
theorem setActive_no_credentials_error (repo : AccountRepo) (rp : Bool)
    (a : String) (s : ServiceState) (h : repo a = some none) :
    setActiveAccount repo rp a s =
      (Except.error (PyError.valueError
        ("No credentials available for account " ++ a ++
         ". Please re-enter credentials via the UI.")), s) := by
  simp [setActiveAccount, h]

/-- Witness for `setActive_no_credentials_error`: an account registered
without in-memory credentials, attempted while dev is active. -/
theorem setActive_no_credentials_error_witness :
    setActiveAccount (fun a => if a == "prod" then some none else none) true
      "prod" c1FirstState =
      (Except.error (PyError.valueError
        ("No credentials available for account " ++ "prod" ++
         ". Please re-enter credentials via the UI.")), c1FirstState) :=
  setActive_no_credentials_error
    (fun a => if a == "prod" then some none else none) true "prod"
    c1FirstState (by decide)

/-- C3: REFUTED.  After a successful initialization (agent handle 1), a
failing rebuild leaves the previously stored handle in place: current()
returns the stale handle 1, not absent as the claim requires. -/
theorem mcp_failed_rebuild_counterexample :
    getCurrentAgentAndTools
      (reinitializeWithCredentials none
        (reinitializeWithCredentials (some 1) {}).2).2 = some 1 := by
  decide

/-- C3 (amended): a failing rebuild makes reinitialize itself return an
absent handle, but the manager keeps its previous stored state untouched, so
current() keeps returning the pre-rebuild handle (absent only when no build
ever succeeded). -/
theorem mcp_failed_rebuild_keeps_old_handle (s : MCPState) :
    (reinitializeWithCredentials none s).1 = none ∧
    (reinitializeWithCredentials none s).2 = s ∧
    getCurrentAgentAndTools (reinitializeWithCredentials none s).2 =
      getCurrentAgentAndTools s := by
  exact ⟨rfl, rfl, rfl⟩

/-- C4 counterexample run: a chat call with a present prompt while the
engine handle is absent. -/
def c4Call : ChatCallResult :=
  executeChatPrompt false (fun _ => RawOutcome.success (AgentResponse.text "hi"))
    "list my ec2 instances"

/-- C4: REFUTED on the error type.  With the engine handle absent the
gateway raises the Python builtin RuntimeError, not the typed
AgentUnavailableError of the domain taxonomy (which no gateway code path
raises). -/
theorem chat_unavailable_counterexample :
    c4Call.result = Except.error (PyError.runtimeError
      "AI agent is not available. Please check that your AI provider API key is set in your .env file.") ∧
    isAgentUnavailableErr c4Call.result = false := by
  exact ⟨rfl, rfl⟩

/-- C4 (amended): with the engine handle absent, a chat call with a
non-blank prompt fails fast AFTER acquiring the chat capacity slot, with a
RuntimeError carrying the agent-unavailable message, and the engine is never
invoked. -/
theorem chat_unavailable_fails_fast (outcomes : Nat → RawOutcome)
    (prompt : String) (h1 : (prompt == "") = false)
    (h2 : (pyStrip prompt == "") = false) :
    (executeChatPrompt false outcomes prompt).result =
      Except.error (PyError.runtimeError
        "AI agent is not available. Please check that your AI provider API key is set in your .env file.") ∧
    (executeChatPrompt false outcomes prompt).slotAcquired = true ∧
    (executeChatPrompt false outcomes prompt).engineInvocations = 0 := by
  simp [executeChatPrompt, h1, h2]

/-- Witness for `chat_unavailable_fails_fast` at a concrete prompt and
engine behaviour. -/
theorem chat_unavailable_fails_fast_witness :
    (executeChatPrompt false (fun _ => RawOutcome.timeoutErr)
        "list my ec2 instances").result =
      Except.error (PyError.runtimeError
        "AI agent is not available. Please check that your AI provider API key is set in your .env file.") ∧
    (executeChatPrompt false (fun _ => RawOutcome.timeoutErr)
        "list my ec2 instances").slotAcquired = true ∧
    (executeChatPrompt false (fun _ => RawOutcome.timeoutErr)
        "list my ec2 instances").engineInvocations = 0 :=
  chat_unavailable_fails_fast (fun _ => RawOutcome.timeoutErr)
    "list my ec2 instances" (by decide) (by decide)

/-- C10: with the engine handle present and a non-blank prompt,
execute_chat_prompt never raises: timeouts, retry exhaustion, engine-side
errors and empty normalization results are all converted into an ordinary
returned string. -/
theorem executeChatPrompt_never_raises (outcomes : Nat → RawOutcome)
    (prompt : String) (h1 : (prompt == "") = false)
    (h2 : (pyStrip prompt == "") = false) :
    (executeChatPrompt true outcomes prompt).result.isOk = true := by
  have hcond : (prompt == "" || pyStrip prompt == "") = false := by
    rw [h1, h2]; rfl
  unfold executeChatPrompt
  rw [hcond]
  simp only [Bool.false_eq_true, if_false, Bool.not_true]
  cases hval : (executeWithRetry outcomes "45.0" 1).1 with
  | error e => simp only []; split_ifs <;> rfl
  | ok resp => simp only []; split_ifs <;> rfl

/-- Witness for `executeChatPrompt_never_raises`: an engine that times out
on every invocation still produces an ordinary response string. -/
theorem executeChatPrompt_never_raises_witness :
    (executeChatPrompt true (fun _ => RawOutcome.timeoutErr)
        "list my ec2 instances").result.isOk = true :=
  executeChatPrompt_never_raises (fun _ => RawOutcome.timeoutErr)
    "list my ec2 instances" (by decide) (by decide)

/-- C6: a timed-out agent call raises MessageProcessingError (so the
request terminates rather than hanging, and phase 4 of execute re-raises it
as MessageProcessingError too), increments the timeout counter exposed by
get_performance_stats by exactly one, and the explanation text is the
complex-operation message precisely when the elapsed time exceeds 60 s and
the transient-load message otherwise — two distinct messages. -/
theorem agent_timeout_surfaces_typed_error (elapsed : ℚ) (s : UseCaseStats)
    (cc : ConvCache) :
    (executeAgentProcessing elapsed AgentCallOutcome.timeoutTriggered s).1 =
      Except.error (PyError.messageProcessingError
        (if elapsed > 60 then complexTimeoutMessage else transientTimeoutMessage)) ∧
    (getPerformanceStats
        (executeAgentProcessing elapsed AgentCallOutcome.timeoutTriggered s).2
        cc).timeoutCount = (getPerformanceStats s cc).timeoutCount + 1 ∧
    complexTimeoutMessage ≠ transientTimeoutMessage ∧
    isMessageProcessingErr (wrapAgentTaskResult
      (executeAgentProcessing elapsed AgentCallOutcome.timeoutTriggered s).1) = true := by
  refine ⟨rfl, rfl, by decide, ?_⟩
  simp only [executeAgentProcessing, wrapAgentTaskResult, isMessageProcessingErr]


/-- A dict assignment grows the cache by at most one entry. -/
lemma convAssign_length_le (k : String) (v : Nat) (c : ConvCache) :
    (convAssign k v c).length ≤ c.length + 1 := by
  induction c with
  | nil => simp [convAssign]
  | cons hd tl ih =>
      obtain ⟨k2, v2⟩ := hd
      simp only [convAssign]
      split
      · simp
      · simpa using Nat.succ_le_succ ih

/-- Removing a present key strictly shrinks the cache. -/
lemma filter_out_present_key_length_lt (k : String) (v : Nat) (c : ConvCache)
    (h : List.lookup k c = some v) :
    (c.filter fun p => !(p.1 == k)).length < c.length := by
  induction c with
  | nil => simp [List.lookup] at h
  | cons hd tl ih =>
      obtain ⟨k2, v2⟩ := hd
      by_cases hk : k == k2
      · have hk2 : (k2 == k) = true := by
          have he : k = k2 := by simpa using hk
          simp [he]
        simp only [List.filter_cons, hk2, Bool.not_true]
        exact Nat.lt_succ_of_le (List.length_filter_le _ _)
      · have hl : List.lookup k tl = some v := by
          simpa [List.lookup, hk] using h
        have hk2 : (k2 == k) = false := by
          have hne : ¬k = k2 := by simpa using hk
          exact beq_eq_false_iff_ne.mpr fun hh => hne hh.symm
        simp only [List.filter_cons, hk2, Bool.not_false, List.length_cons]
        exact Nat.succ_lt_succ (ih hl)

/-- move_to_end never grows the cache. -/
lemma moveToEnd_length_le (k : String) (c : ConvCache) :
    (moveToEnd k c).length ≤ c.length := by
  unfold moveToEnd
  cases h : List.lookup k c with
  | none => exact Nat.le_refl _
  | some v =>
      simp only [List.length_append, List.length_cons, List.length_nil]
      exact Nat.succ_le_of_lt (filter_out_present_key_length_lt k v c h)

/-- The assign-then-evict idiom keeps the cache within the configured
bound. -/
lemma convInsertBounded_length_le (maxSize : Nat) (k : String) (v : Nat)
    (c : ConvCache) (h : c.length ≤ maxSize) :
    (convInsertBounded maxSize k v c).length ≤ maxSize := by
  unfold convInsertBounded
  split
  · next hgt =>
      have h2 : (convAssign k v c).length ≤ maxSize + 1 :=
        Nat.le_trans (convAssign_length_le k v c) (Nat.succ_le_succ h)
      simpa using Nat.sub_le_sub_right h2 1
  · next hle => exact Nat.le_of_not_lt hle

/-- Every single cache operation preserves the size bound. -/
lemma convCacheStep_length_le (maxSize : Nat) (c : ConvCache)
    (op : ConvCacheOp) (h : c.length ≤ maxSize) :
    (convCacheStep maxSize c op).length ≤ maxSize := by
  cases op with
  | validateConv id fetched =>
      simp only [convCacheStep]
      split
      · exact Nat.le_trans (moveToEnd_length_le _ _) h
      · cases fetched with
        | none => exact h
        | some conv => exact convInsertBounded_length_le _ _ _ _ h
  | ensureWithId id fetched =>
      simp only [convCacheStep]
      split
      · exact Nat.le_trans (moveToEnd_length_le _ _) h
      · cases fetched with
        | none => exact h
        | some conv => exact convInsertBounded_length_le _ _ _ _ h
  | ensureNew id conv => exact convInsertBounded_length_le _ _ _ _ h
  | clearCaches => simp [convCacheStep]

/-- Size bound along any fold of cache operations. -/
lemma convCacheFoldl_length_le (maxSize : Nat) (ops : List ConvCacheOp) :
    ∀ c : ConvCache, c.length ≤ maxSize →
      (ops.foldl (convCacheStep maxSize) c).length ≤ maxSize := by
  induction ops with
  | nil => intro c h; simpa using h
  | cons op rest ih =>
      intro c h
      exact ih _ (convCacheStep_length_le maxSize c op h)

/-- Assigning an absent key appends it at the most-recently-used end. -/
lemma convAssign_of_lookup_none (k : String) (v : Nat) (c : ConvCache)
    (h : List.lookup k c = none) : convAssign k v c = c ++ [(k, v)] := by
  induction c with
  | nil => rfl
  | cons hd tl ih =>
      obtain ⟨k2, v2⟩ := hd
      by_cases hk : k == k2
      · simp [List.lookup, hk] at h
      · have hk2 : (k2 == k) = false := by
          have hne : ¬k = k2 := by simpa using hk
          exact beq_eq_false_iff_ne.mpr fun hh => hne hh.symm
        have hl : List.lookup k tl = none := by simpa [List.lookup, hk] using h
        simp [convAssign, hk2, ih hl]

/-- C7: (1) starting from the empty cache, no sequence of
conversation-cache operations ever leaves more than max_cache_size entries;
(2) when an insertion into a full cache evicts, the evicted entry is exactly
the least-recently-used head and the new entry lands at the
most-recently-used end; (3) a cache hit relocates the accessed entry to the
most-recently-used end, preserving the order of the other entries. -/
theorem conversation_cache_lru :
    (∀ (maxSize : Nat) (ops : List ConvCacheOp),
      (convCacheRun maxSize ops).length ≤ maxSize) ∧
    (∀ (maxSize : Nat) (k : String) (v : Nat) (c : ConvCache),
      List.lookup k c = none → c.length = maxSize → 0 < maxSize →
      convInsertBounded maxSize k v c = c.tail ++ [(k, v)]) ∧
    (∀ (maxSize : Nat) (k : String) (v : Nat) (f : Option Nat) (c : ConvCache),
      List.lookup k c = some v →
      convCacheStep maxSize c (ConvCacheOp.validateConv k f) =
        (c.filter fun p => !(p.1 == k)) ++ [(k, v)] ∧
      (convCacheStep maxSize c (ConvCacheOp.validateConv k f)).getLast? =
        some (k, v)) := by
  refine ⟨?_, ?_, ?_⟩
  · intro maxSize ops
    exact convCacheFoldl_length_le maxSize ops [] (Nat.zero_le _)
  · intro maxSize k v c hk hlen hpos
    unfold convInsertBounded
    rw [convAssign_of_lookup_none k v c hk]
    have hgt : (c ++ [(k, v)]).length > maxSize := by
      simp only [List.length_append, List.length_cons, List.length_nil, hlen]
      omega
    rw [if_pos hgt]
    have h1 : 1 ≤ c.length := by omega
    rw [List.drop_append_of_le_length h1, List.drop_one]
  · intro maxSize k v f c hk
    have h1 : convCacheStep maxSize c (ConvCacheOp.validateConv k f) =
        (c.filter fun p => !(p.1 == k)) ++ [(k, v)] := by
      simp only [convCacheStep, hk, Option.isSome_some, if_true]
      unfold moveToEnd
      rw [hk]
    exact ⟨h1, by rw [h1]; exact List.getLast?_concat _⟩

/-- Witness for `conversation_cache_lru` on a cache of bound 2: three
insertions keep the size at 2; inserting c3 into the full cache
[c1, c2] evicts c1 and appends c3; a hit on c1 moves it to the
most-recently-used end. -/
theorem conversation_cache_lru_witness :
    (convCacheRun 2 [ConvCacheOp.ensureNew "c1" 1, ConvCacheOp.ensureNew "c2" 2,
        ConvCacheOp.ensureNew "c3" 3]).length ≤ 2 ∧
    convInsertBounded 2 "c3" 3 [("c1", 1), ("c2", 2)] =
      ([("c1", 1), ("c2", 2)] : ConvCache).tail ++ [("c3", 3)] ∧
    convCacheStep 2 [("c1", 1), ("c2", 2)] (ConvCacheOp.validateConv "c1" none) =
      (([("c1", 1), ("c2", 2)] : ConvCache).filter fun p => !(p.1 == "c1")) ++
        [("c1", 1)] :=
  ⟨conversation_cache_lru.1 2 _,
   conversation_cache_lru.2.1 2 "c3" 3 [("c1", 1), ("c2", 2)]
     (by decide) (by decide) (by decide),
   (conversation_cache_lru.2.2 2 "c1" 1 none [("c1", 1), ("c2", 2)]
     (by decide)).1⟩

/-- Looking up the just-inserted alias returns the inserted entry. -/
lemma lookup_alistInsert_self (a : String) (ctx : AccountContext)
    (c : List (String × AccountContext)) :
    List.lookup a (alistInsert a ctx c) = some ctx := by
  induction c with
  | nil => simp [alistInsert, List.lookup]
  | cons hd tl ih =>
      obtain ⟨k2, v2⟩ := hd
      by_cases hk : k2 == a
      · simp [alistInsert, hk, List.lookup]
      · have ha : (a == k2) = false := by
          have hne : ¬k2 = a := by simpa using hk
          exact beq_eq_false_iff_ne.mpr fun hh => hne hh.symm
        simp [alistInsert, hk, List.lookup, ha, ih]

/-- The context entry cached by a successful validation at time `t0`. -/
def validEntry (a : String) (t0 : ℚ) (info : Option AccountInfo) :
    AccountContext :=
  { acctAlias := a
    is_valid := true
    last_validated := t0
    account_id := (info.map (·.account_id)).join
    region := (info.map (·.region)).join }

/-- The context entry cached by a failed validation at time `t0`. -/
def invalidEntry (a : String) (t0 : ℚ) : AccountContext :=
  { acctAlias := a, is_valid := false, last_validated := t0 }

/-- Shape of a fresh-alias call to get_validated_context with a succeeding
validator. -/
lemma getValidatedContext_miss_ok (ttl t0 : ℚ) (a : String)
    (info : Option AccountInfo) (c : List (String × AccountContext))
    (hmiss : List.lookup a c = none) :
    getValidatedContext ttl t0 a (Except.ok info) c =
      (Except.ok (validEntry a t0 info),
       alistInsert a (validEntry a t0 info) c, true) := by
  simp [getValidatedContext, getValidatedContext.getValidatedContextMiss,
    hmiss, validEntry]

/-- Shape of a fresh-alias call to get_validated_context with a raising
validator. -/
lemma getValidatedContext_miss_error (ttl t0 : ℚ) (a : String) (e : String)
    (c : List (String × AccountContext))
    (hmiss : List.lookup a c = none) :
    getValidatedContext ttl t0 a (Except.error e) c =
      (Except.error e, alistInsert a (invalidEntry a t0) c, true) := by
  simp [getValidatedContext, getValidatedContext.getValidatedContextMiss,
    hmiss, invalidEntry]

/-- C2 counterexample run: cache state after a failed validation of dev at
time 0. -/
def c2FailedCache : List (String × AccountContext) :=
  (getValidatedContext accountCacheTTL 0 "dev"
    (Except.error "validation boom") []).2.1

/-- C2: PARTLY REFUTED.  The first validation of dev raises; an immediate
retry 1 s later (within the 60 s failed-entry window) indeed does not
re-invoke the validator, but it does NOT return the same failure: it
returns normally, yielding the cached entry with is_valid = false, because
_is_cache_valid accepts the invalid entry and get_validated_context then
returns it instead of re-raising. -/
theorem cache_failed_retry_counterexample :
    (getValidatedContext accountCacheTTL 0 "dev"
      (Except.error "validation boom") []).1 = Except.error "validation boom" ∧
    (getValidatedContext accountCacheTTL 1 "dev"
      (Except.error "second boom") c2FailedCache).2.2 = false ∧
    (getValidatedContext accountCacheTTL 1 "dev"
      (Except.error "second boom") c2FailedCache).1 =
      Except.ok (invalidEntry "dev" 0) := by
  refine ⟨?_, ?_, ?_⟩ <;>
    simp [getValidatedContext, getValidatedContext.getValidatedContextMiss,
      c2FailedCache, accountCacheTTL, invalidEntry, alistInsert,
      List.lookup, isCacheValid]

/-- C2 (amended): (1) within the 300 s valid-entry window a second call
does not re-invoke the validator and yields the first call's cached
outcome; (2) after a failed validation, a retry within the 60 s
failed-entry window does not re-invoke the validator and returns the cached
invalid entry as a normal (non-raising) result — not the original failure;
(3) the failed-entry window is strictly shorter than the valid-entry
window; (4) a retry after the failed-entry window elapses re-invokes the
validator. -/
theorem account_cache_freshness :
    (∀ (t0 t1 : ℚ) (a : String) (info : Option AccountInfo)
        (c : List (String × AccountContext))
        (v2 : Except String (Option AccountInfo)),
      List.lookup a c = none → t1 - t0 < accountCacheTTL →
      (getValidatedContext accountCacheTTL t0 a (Except.ok info) c).2.2 = true ∧
      (getValidatedContext accountCacheTTL t1 a v2
        (getValidatedContext accountCacheTTL t0 a (Except.ok info) c).2.1).2.2 =
        false ∧
      (getValidatedContext accountCacheTTL t1 a v2
        (getValidatedContext accountCacheTTL t0 a (Except.ok info) c).2.1).1 =
        (getValidatedContext accountCacheTTL t0 a (Except.ok info) c).1) ∧
    (∀ (t0 t1 : ℚ) (a e : String)
        (c : List (String × AccountContext))
        (v2 : Except String (Option AccountInfo)),
      List.lookup a c = none → t1 - t0 < failedEntryTTL →
      (getValidatedContext accountCacheTTL t1 a v2
        (getValidatedContext accountCacheTTL t0 a (Except.error e) c).2.1).2.2 =
        false ∧
      (getValidatedContext accountCacheTTL t1 a v2
        (getValidatedContext accountCacheTTL t0 a (Except.error e) c).2.1).1 =
        Except.ok (invalidEntry a t0)) ∧
    failedEntryTTL < accountCacheTTL ∧
    (∀ (t0 t1 : ℚ) (a e : String)
        (c : List (String × AccountContext))
        (v2 : Except String (Option AccountInfo)),
      List.lookup a c = none → failedEntryTTL ≤ t1 - t0 →
      (getValidatedContext accountCacheTTL t1 a v2
        (getValidatedContext accountCacheTTL t0 a (Except.error e) c).2.1).2.2 =
        true) := by
  refine ⟨?_, ?_, ?_, ?_⟩
  · intro t0 t1 a info c v2 hmiss ht
    rw [getValidatedContext_miss_ok accountCacheTTL t0 a info c hmiss]
    have hvalid : isCacheValid accountCacheTTL t1 (validEntry a t0 info) = true := by
      simp [isCacheValid, validEntry]
      exact ht
    simp [getValidatedContext, lookup_alistInsert_self, hvalid]
  · intro t0 t1 a e c v2 hmiss ht
    rw [getValidatedContext_miss_error accountCacheTTL t0 a e c hmiss]
    have hvalid : isCacheValid accountCacheTTL t1 (invalidEntry a t0) = true := by
      simp [isCacheValid, invalidEntry, failedEntryTTL]
      simpa [failedEntryTTL] using ht
    simp [getValidatedContext, lookup_alistInsert_self, hvalid]
  · simp [failedEntryTTL, accountCacheTTL]
    norm_num
  · intro t0 t1 a e c v2 hmiss ht
    rw [getValidatedContext_miss_error accountCacheTTL t0 a e c hmiss]
    have hstale : isCacheValid accountCacheTTL t1 (invalidEntry a t0) = false := by
      simp [isCacheValid, invalidEntry]
      simpa [failedEntryTTL] using ht
    cases v2 with
    | ok info =>
        simp [getValidatedContext, getValidatedContext.getValidatedContextMiss,
          lookup_alistInsert_self, hstale]
    | error e2 =>
        simp [getValidatedContext, getValidatedContext.getValidatedContextMiss,
          lookup_alistInsert_self, hstale]

/-- Witness for `account_cache_freshness` at concrete times: success at
t=0 then reuse at t=100; failure at t=0 then cached failure at t=30 and
re-validation at t=120. -/
theorem account_cache_freshness_witness :
    ((getValidatedContext accountCacheTTL 0 "dev" (Except.ok none) []).2.2 = true ∧
     (getValidatedContext accountCacheTTL 100 "dev" (Except.error "late")
       (getValidatedContext accountCacheTTL 0 "dev" (Except.ok none) []).2.1).2.2 =
       false ∧
     (getValidatedContext accountCacheTTL 100 "dev" (Except.error "late")
       (getValidatedContext accountCacheTTL 0 "dev" (Except.ok none) []).2.1).1 =
       (getValidatedContext accountCacheTTL 0 "dev" (Except.ok none) []).1) ∧
    ((getValidatedContext accountCacheTTL 30 "dev" (Except.error "again")
       (getValidatedContext accountCacheTTL 0 "dev" (Except.error "boom") []).2.1).2.2 =
       false ∧
     (getValidatedContext accountCacheTTL 30 "dev" (Except.error "again")
       (getValidatedContext accountCacheTTL 0 "dev" (Except.error "boom") []).2.1).1 =
       Except.ok (invalidEntry "dev" 0)) ∧
    (getValidatedContext accountCacheTTL 120 "dev" (Except.error "again")
      (getValidatedContext accountCacheTTL 0 "dev" (Except.error "boom") []).2.1).2.2 =
      true :=
  ⟨account_cache_freshness.1 0 100 "dev" none [] (Except.error "late") rfl
     (by norm_num [accountCacheTTL]),
   account_cache_freshness.2.1 0 30 "dev" "boom" [] (Except.error "again") rfl
     (by norm_num [failedEntryTTL]),
   account_cache_freshness.2.2.2 0 120 "dev" "boom" [] (Except.error "again") rfl
     (by norm_num [failedEntryTTL])⟩

/-- C9: (1) on a fresh alias, any validator that returns without raising —
including returning none for an unknown account — yields and caches a
context with is_valid = true; (2) an entry with is_valid = false is cached
exactly by a raising validator; (3) the orchestrator's account validation,
whose validator is the repository lookup returning none for a missing
alias, therefore succeeds for unknown aliases. -/
theorem absent_account_validates_ok :
    (∀ (ttl now : ℚ) (a : String) (info : Option AccountInfo)
        (c : List (String × AccountContext)),
      List.lookup a c = none →
      (getValidatedContext ttl now a (Except.ok info) c).1 =
        Except.ok (validEntry a now info) ∧
      (validEntry a now info).is_valid = true ∧
      List.lookup a (getValidatedContext ttl now a (Except.ok info) c).2.1 =
        some (validEntry a now info)) ∧
    (∀ (ttl now : ℚ) (a e : String) (c : List (String × AccountContext)),
      List.lookup a c = none →
      List.lookup a (getValidatedContext ttl now a (Except.error e) c).2.1 =
        some (invalidEntry a now) ∧
      (invalidEntry a now).is_valid = false) ∧
    (∀ (now : ℚ) (a : String) (c : List (String × AccountContext)),
      List.lookup a c = none →
      (validateAccountContext a (Except.ok none) now c).1 = Except.ok ()) := by
  refine ⟨?_, ?_, ?_⟩
  · intro ttl now a info c hmiss
    rw [getValidatedContext_miss_ok ttl now a info c hmiss]
    exact ⟨rfl, rfl, lookup_alistInsert_self a _ c⟩
  · intro ttl now a e c hmiss
    rw [getValidatedContext_miss_error ttl now a e c hmiss]
    exact ⟨lookup_alistInsert_self a _ c, rfl⟩
  · intro now a c hmiss
    unfold validateAccountContext
    rw [getValidatedContext_miss_ok accountCacheTTL now a none c hmiss]

/-- Witness for `absent_account_validates_ok`: unknown alias ghost on an
empty cache. -/
theorem absent_account_validates_ok_witness :
    ((getValidatedContext accountCacheTTL 0 "ghost" (Except.ok none) []).1 =
        Except.ok (validEntry "ghost" 0 none) ∧
      (validEntry "ghost" 0 none).is_valid = true ∧
      List.lookup "ghost"
        (getValidatedContext accountCacheTTL 0 "ghost" (Except.ok none) []).2.1 =
        some (validEntry "ghost" 0 none)) ∧
    (List.lookup "ghost"
        (getValidatedContext accountCacheTTL 0 "ghost"
          (Except.error "boom") []).2.1 = some (invalidEntry "ghost" 0) ∧
      (invalidEntry "ghost" 0).is_valid = false) ∧
    (validateAccountContext "ghost" (Except.ok none) 0 []).1 = Except.ok () :=
  ⟨absent_account_validates_ok.1 accountCacheTTL 0 "ghost" none [] rfl,
   absent_account_validates_ok.2.1 accountCacheTTL 0 "ghost" "boom" [] rfl,
   absent_account_validates_ok.2.2 0 "ghost" [] rfl⟩

/-- An engine that raises a rate-limit error on the first invocation and
succeeds on the second. -/
def rateLimitThenSuccess : Nat → RawOutcome := fun n =>
  if n == 0 then RawOutcome.raiseErr "rate limit exceeded"
  else RawOutcome.success (AgentResponse.text "answer from second attempt")

/-- An engine that always raises an authentication error. -/
def alwaysAuthError : Nat → RawOutcome := fun _ =>
  RawOutcome.raiseErr "authentication failed: invalid api key"

/-- C8: under batch priority (`max_attempts = 2`, default 120 s timeout),
(1) a first-attempt error bearing a curated transient signature is retried
once after a `2 ** 0` backoff sleep and the second attempt's success is
surfaced; (2) a first-attempt error without any transient signature is not
retried: one invocation, no backoff, the wrapped error surfaces; (3) the
curated signature list classifies a rate-limit message as retriable and
authentication / malformed-request messages as non-retriable. -/
theorem batch_retry_policy :
    (∀ (outcomes : Nat → RawOutcome) (msg : String) (r : AgentResponse),
      agentOperation (outcomes 0) = RawOutcome.raiseErr msg →
      isRetriableError msg = true →
      agentOperation (outcomes 1) = RawOutcome.success r →
      executeWithRetry outcomes "120.0" 2 = (Except.ok r, 2, [1])) ∧
    (∀ (outcomes : Nat → RawOutcome) (msg : String),
      agentOperation (outcomes 0) = RawOutcome.raiseErr msg →
      isRetriableError msg = false →
      executeWithRetry outcomes "120.0" 2 =
        (Except.error (PyError.runtimeError
          ("Error executing agent operation: " ++ msg)), 1, [])) ∧
    isRetriableError "rate limit exceeded" = true ∧
    isRetriableError "authentication failed: invalid api key" = false ∧
    isRetriableError "BadRequestError: malformed request body" = false := by
  refine ⟨?_, ?_, by decide, by decide, by decide⟩
  · intro outcomes msg r h0 hr h1
    simp [executeWithRetry, executeWithRetryAux, h0, hr, h1]
  · intro outcomes msg h0 hr
    simp [executeWithRetry, executeWithRetryAux, h0, hr]

/-- Witness for `batch_retry_policy`: the rate-limited-then-successful
engine is retried and its second answer surfaces; the authentication-error
engine is not retried. -/
theorem batch_retry_policy_witness :
    executeWithRetry rateLimitThenSuccess "120.0" 2 =
      (Except.ok (AgentResponse.text "answer from second attempt"), 2, [1]) ∧
    executeWithRetry alwaysAuthError "120.0" 2 =
      (Except.error (PyError.runtimeError
        ("Error executing agent operation: " ++
         "authentication failed: invalid api key")), 1, []) :=
  ⟨batch_retry_policy.1 rateLimitThenSuccess "rate limit exceeded"
     (AgentResponse.text "answer from second attempt")
     (by decide) (by decide) (by decide),
   batch_retry_policy.2.1 alwaysAuthError
     "authentication failed: invalid api key" (by decide) (by decide)⟩
